import Mathlib

/-!
Verification of the credential and session lifecycle engine of the
auth service (services/auth-service).  The development shallowly embeds:

* the Redis-backed ephemeral key-value store (app/core/redis_client.py),
  modelled as a function from structured keys to values paired with an
  optional absolute expiry timestamp; time is Nat seconds and every
  operation takes the current time explicitly;
* JWT minting and verification (app/core/security.py), where a token is
  either a signed claims bundle under a signing key or a malformed blob;
  the model captures that encoding is deterministic and injective on
  (key, claims), so byte-equality of encoded tokens coincides with
  equality of the `Token` values;
* the token service (app/services/token_service.py): refresh-token
  pointer, blacklist with TTL, logout, logout-all;
* the OTP service (app/services/otp_service.py);
* the rate limiter (app/services/rate_limit_service.py);
* the login endpoint's guard logic and the logout endpoint
  (app/api/v1/endpoints/auth.py, app/models/user.py).
-/

namespace Alter8

/-- Setting `ACCESS_TOKEN_EXPIRE_MINUTES` from app/core/config.py (default 15). -/
def ACCESS_TOKEN_EXPIRE_MINUTES : Nat := 15

/-- Setting `REFRESH_TOKEN_EXPIRE_DAYS` from app/core/config.py (default 7). -/
def REFRESH_TOKEN_EXPIRE_DAYS : Nat := 7

/-- Setting `OTP_EXPIRE_MINUTES` from app/core/config.py (default 10). -/
def OTP_EXPIRE_MINUTES : Nat := 10

/-- Setting `OTP_MAX_ATTEMPTS` from app/core/config.py (default 3). -/
def OTP_MAX_ATTEMPTS : Nat := 3

/-- Setting `MAX_LOGIN_ATTEMPTS` from app/core/config.py (default 5). -/
def MAX_LOGIN_ATTEMPTS : Nat := 5

/-- Setting `LOCKOUT_DURATION_MINUTES` from app/core/config.py (default 30). -/
def LOCKOUT_DURATION_MINUTES : Nat := 30

/-- Setting `settings.SECRET_KEY`, provided by the environment; the model
fixes an arbitrary value, and signature validity is equality with it. -/
def SECRET_KEY : String := "environment-secret"

/-- Claim set of a JWT as built by app/core/security.py: subject, type
discriminator ("access" or "refresh"), optional expiry, issued-at, and the
optional role claim merged in via additional_claims. -/
structure Claims where
  sub : String
  type : String
  exp : Option Nat
  iat : Nat
  role : Option String
deriving DecidableEq, Repr

/-- Model of an encoded JWT string.  `signed key claims` stands for
`jwt.encode(claims, key)`; since `jwt.encode` is deterministic and the
payload is embedded in the output, equality of encoded strings coincides
with equality of (key, claims).  `malformed` stands for any string that is
not a well-formed JWT. -/
inductive Token where
  | signed (key : String) (claims : Claims)
  | malformed (raw : String)
deriving DecidableEq, Repr

/-- Schema `TokenData` (app/schemas/auth.py) returned by `verify_token`. -/
structure TokenData where
  user_id : String
  role : Option String
deriving DecidableEq, Repr

/-- Value stored at a Redis key: a plain string, a token string
(`tok t` stands for the encoded form of `t`), or an integer counter
(`num n` stands for the canonical decimal string of `n`, the form INCR
reads and writes). -/
inductive Val where
  | str (s : String)
  | tok (t : Token)
  | num (n : Nat)
deriving DecidableEq, Repr

/-- Structured model of the store's key namespace (spec section 6):
`blacklist:{sha256(token)}` (sha256 modelled as injective, so the key is
indexed by the token itself), `refresh_token:{subject}`,
`session:{subject}`, `otp:{purpose}:{identifier}`,
`otp_attempts:{purpose}:{identifier}`, and caller-defined rate-limit keys. -/
inductive Key where
  | blacklist (t : Token)
  | refreshTok (userId : String)
  | session (userId : String)
  | otp (purpose identifier : String)
  | otpAttempts (purpose identifier : String)
  | rate (name : String)
deriving DecidableEq, Repr

/-- The ephemeral key-value store: each key maps to nothing, or to a value
together with an optional absolute expiry timestamp (in seconds). -/
def Store : Type := Key → Option (Val × Option Nat)

/-- Store with no keys set. -/
def emptyStore : Store := fun _ => none

/-- Redis key liveness: a key exists iff it is set and not yet expired. -/
def Store.live (s : Store) (now : Nat) (k : Key) : Bool :=
  match s k with
  | none => false
  | some (_, none) => true
  | some (_, some e) => decide (now < e)

/-- Redis GET: the value if the key is live, else absent. -/
def Store.get (s : Store) (now : Nat) (k : Key) : Option Val :=
  match s k with
  | none => none
  | some (v, none) => some v
  | some (v, some e) => if now < e then some v else none

/-- Redis SETEX: set a value with expiry `now + ttl`. -/
def Store.setex (s : Store) (now ttl : Nat) (k : Key) (v : Val) : Store :=
  fun k' => if k' = k then some (v, some (now + ttl)) else s k'

/-- Redis DEL: remove a key. -/
def Store.del (s : Store) (k : Key) : Store :=
  fun k' => if k' = k then none else s k'

/-- Numeric reading of a stored value, as `int(value)` does on the decimal
strings the services store at counter keys. -/
def Val.asNat : Val → Nat
  | .str t => (t.toNat?).getD 0
  | .tok _ => 0
  | .num n => n

/-- Reading a stored counter value back yields the stored number. -/
theorem Val.asNat_num (n : Nat) : (Val.num n).asNat = n := rfl

/-- Redis INCR: on a live key, parse and add one keeping the TTL; on an
absent or expired key, start a fresh counter at 1 with no TTL.  Returns the
post-increment value and the new store. -/
def Store.incr (s : Store) (now : Nat) (k : Key) : Nat × Store :=
  match s k with
  | some (v, none) =>
      let n := v.asNat + 1
      (n, fun k' => if k' = k then some (.num n, none) else s k')
  | some (v, some e) =>
      if now < e then
        let n := v.asNat + 1
        (n, fun k' => if k' = k then some (.num n, some e) else s k')
      else
        (1, fun k' => if k' = k then some (.num 1, none) else s k')
  | none => (1, fun k' => if k' = k then some (.num 1, none) else s k')

/-- Redis EXPIRE: set the expiry of a live key to `now + w`; no effect on an
absent or already-expired key. -/
def Store.expire (s : Store) (now w : Nat) (k : Key) : Store :=
  match s k with
  | none => s
  | some (v, none) => fun k' => if k' = k then some (v, some (now + w)) else s k'
  | some (v, some e) =>
      if now < e then fun k' => if k' = k then some (v, some (now + w)) else s k'
      else s

/-- Redis TTL: remaining seconds for a live key with an expiry, -1 for a
live key without one, -2 for an absent or expired key. -/
def Store.ttlOf (s : Store) (now : Nat) (k : Key) : Int :=
  match s k with
  | none => -2
  | some (_, none) => -1
  | some (_, some e) => if now < e then ((e : Int) - (now : Int)) else -2

/-- Function `create_access_token` (app/core/security.py): a token signed
with `SECRET_KEY` carrying subject, type "access", expiry now + 15 minutes
(the default `expires_delta`), issued-at, and the role passed through
`additional_claims` (the callers in this repository always pass one). -/
def create_access_token (subject : String) (role : Option String) (now : Nat) : Token :=
  Token.signed SECRET_KEY
    { sub := subject, type := "access",
      exp := some (now + ACCESS_TOKEN_EXPIRE_MINUTES * 60), iat := now, role := role }

/-- Function `create_refresh_token` (app/core/security.py): type "refresh",
expiry now + 7 days, no role claim. -/
def create_refresh_token (subject : String) (now : Nat) : Token :=
  Token.signed SECRET_KEY
    { sub := subject, type := "refresh",
      exp := some (now + REFRESH_TOKEN_EXPIRE_DAYS * 24 * 3600), iat := now, role := none }

/-- Model of `jwt.decode(token, key, ...)` of python-jose: succeeds iff the
token is well-formed and signed with `key`; when `verifyExp` is set
(the default; `blacklist_token` passes `verify_exp: False`) a present `exp`
claim must satisfy `now <= exp` (jose raises exactly when `exp < now`). -/
def jwtDecode (t : Token) (key : String) (verifyExp : Bool) (now : Nat) : Option Claims :=
  match t with
  | .malformed _ => none
  | .signed k c =>
    if k = key then
      if verifyExp then
        match c.exp with
        | none => some c
        | some e => if now ≤ e then some c else none
      else some c
    else none

/-- Function `verify_token` (app/core/security.py): decode with expiry
verification and return the subject and role claims.  The `sub` claim is
always present on tokens of this model (the code rejects a payload whose
`sub` is literally absent; structurally invalid tokens are `malformed`). -/
def verify_token (t : Token) (now : Nat) : Option TokenData :=
  match jwtDecode t SECRET_KEY true now with
  | none => none
  | some c => some { user_id := c.sub, role := c.role }

/-- Key `blacklist:{sha256(token)}` built by `TokenService._hash_token`;
sha256 is modelled as injective, so the key is indexed by the token. -/
def blacklistKey (t : Token) : Key := Key.blacklist t

/-- Result of the `redis.exists` round-trip inside
`TokenService.is_token_blacklisted`: `avail` models whether the backing
store is reachable; when it is not, the lookup raises. -/
def redisExists (avail : Bool) (s : Store) (now : Nat) (k : Key) : Except Unit Bool :=
  if avail then .ok (s.live now k) else .error ()

/-- Method `TokenService.is_token_blacklisted`
(app/services/token_service.py, lines 131-139): looks the token's hash up
in the blacklist namespace; the `except` clause turns any store failure
into `False` (the token is reported as not blacklisted). -/
def is_token_blacklisted (avail : Bool) (s : Store) (now : Nat) (t : Token) : Bool :=
  match redisExists avail s now (blacklistKey t) with
  | .ok b => b
  | .error _ => false

/-- Function `verify_token_with_blacklist` (app/core/security.py, lines
96-114): signature check then blacklist check. -/
def verify_token_with_blacklist (avail : Bool) (s : Store) (now : Nat) (t : Token) :
    Option TokenData :=
  match verify_token t now with
  | none => none
  | some td => if is_token_blacklisted avail s now t then none else some td

/-- Method `TokenService.verify_refresh_token`
(app/services/token_service.py, lines 43-74): decode with expiry check,
reject an empty subject or a non-"refresh" type, reject a blacklisted
token, and reject when the stored refresh pointer for the decoded subject
is not byte-equal to the presented token. -/
def verify_refresh_token (avail : Bool) (s : Store) (now : Nat) (t : Token) : Option String :=
  match jwtDecode t SECRET_KEY true now with
  | none => none
  | some c =>
    if c.sub = "" ∨ c.type ≠ "refresh" then none
    else if is_token_blacklisted avail s now t then none
    else if Store.get s now (Key.refreshTok c.sub) ≠ some (Val.tok t) then none
    else some c.sub

/-- Shape of the dict returned by `TokenService.create_token_pair`. -/
structure TokenPair where
  access_token : Token
  refresh_token : Token
  token_type : String
  expires_in : Nat
deriving DecidableEq, Repr

/-- Method `TokenService._store_refresh_token`: SETEX at
`refresh_token:{user_id}` with TTL = the refresh lifetime. -/
def storeRefreshToken (s : Store) (now : Nat) (userId : String) (rt : Token) : Store :=
  Store.setex s now (REFRESH_TOKEN_EXPIRE_DAYS * 24 * 3600) (Key.refreshTok userId) (Val.tok rt)

/-- Method `TokenService.create_token_pair` (lines 25-41): mint both
tokens, overwrite the refresh pointer, return the bearer payload. -/
def create_token_pair (s : Store) (now : Nat) (userId role : String) : TokenPair × Store :=
  let access := create_access_token userId (some role) now
  let refresh := create_refresh_token userId now
  let s1 := storeRefreshToken s now userId refresh
  ({ access_token := access, refresh_token := refresh, token_type := "bearer",
     expires_in := ACCESS_TOKEN_EXPIRE_MINUTES * 60 }, s1)

/-- Method `TokenService.blacklist_token` (lines 97-129): decode without
expiry verification, fail on a missing (or Python-falsy 0) `exp` claim,
compute ttl = exp - now, and only when the ttl is positive SETEX the
blacklist entry with that ttl and report success. -/
def blacklist_token (s : Store) (now : Nat) (t : Token) : Bool × Store :=
  match jwtDecode t SECRET_KEY false now with
  | none => (false, s)
  | some c =>
    match c.exp with
    | none => (false, s)
    | some e =>
      if e = 0 then (false, s)
      else if now < e then
        (true, Store.setex s now (e - now) (blacklistKey t) (Val.str "1"))
      else (false, s)

/-- Method `TokenService._get_refresh_token`. -/
def getRefreshToken (s : Store) (now : Nat) (userId : String) : Option Val :=
  Store.get s now (Key.refreshTok userId)

/-- Method `TokenService._remove_refresh_token` (also
`_remove_all_refresh_tokens`, which the source defines as the same
deletion). -/
def removeRefreshToken (s : Store) (userId : String) : Store :=
  Store.del s (Key.refreshTok userId)

/-- Method `TokenService._clear_user_session`. -/
def clearUserSession (s : Store) (userId : String) : Store :=
  Store.del s (Key.session userId)

/-- Method `TokenService.logout_user` (lines 141-159): blacklist both
tokens, delete the refresh pointer, clear the session, and report success
only when both blacklisting calls succeeded. -/
def logout_user (s : Store) (now : Nat) (userId : String) (access refresh : Token) :
    Bool × Store :=
  let r1 := blacklist_token s now access
  let r2 := blacklist_token r1.2 now refresh
  let s3 := removeRefreshToken r2.2 userId
  let s4 := clearUserSession s3 userId
  (r1.1 && r2.1, s4)

/-- Method `TokenService.logout_all_sessions` (lines 161-175): delete the
refresh pointer and the session key; the happy path always returns True. -/
def logout_all_sessions (s : Store) (userId : String) : Bool × Store :=
  let s1 := removeRefreshToken s userId
  let s2 := clearUserSession s1 userId
  (true, s2)

/-- Outcome of the logout endpoint: the success payload or an HTTP error. -/
inductive LogoutResult where
  | ok
  | err (status : Nat) (detail : String)
deriving DecidableEq, Repr

/-- Endpoint `logout` (app/api/v1/endpoints/auth.py, lines 418-451), after
header extraction: read the stored refresh pointer; when a (Python-truthy)
value is present run `logout_user` with it, otherwise blacklist only the
access token and clear the session; report 500 "Logout failed" when the
chosen operation reports failure.  A stored plain string that is not a
well-formed JWT behaves as a malformed token. -/
def logout_endpoint (s : Store) (now : Nat) (userId : String) (access : Token) :
    LogoutResult × Store :=
  let withRt : Token → LogoutResult × Store := fun rt =>
    let r := logout_user s now userId access rt
    if r.1 then (.ok, r.2) else (.err 500 "Logout failed", r.2)
  let noRt : LogoutResult × Store :=
    let r := blacklist_token s now access
    let s2 := clearUserSession r.2 userId
    if r.1 then (.ok, s2) else (.err 500 "Logout failed", s2)
  match getRefreshToken s now userId with
  | some (.tok t) => withRt t
  | some (.str r) => if r = "" then noRt else withRt (.malformed r)
  | some (.num n) => withRt (.malformed (toString n))
  | none => noRt

/-- Outcome of `OTPService.verify_otp`; the Python function returns the
boolean `OtpOutcome.toBool` of this, and the constructors correspond
one-to-one to its return sites: `verified` (delete and return True),
`invalid` ("Invalid OTP"), `exhausted` ("Max OTP attempts exceeded"),
`notFound` ("OTP not found or expired"), and `error` (the catch-all
`except` handler, "OTP verification failed").  In the deployed
configuration the `verified` and `invalid` sites are unreachable: the
comparison line raises before either is reached (see `verify_otp`). -/
inductive OtpOutcome where
  | verified
  | invalid
  | exhausted
  | notFound
  | error
deriving DecidableEq, Repr

/-- Boolean actually returned by the Python `verify_otp`. -/
def OtpOutcome.toBool : OtpOutcome → Bool
  | .verified => true
  | _ => false

/-- Identifier selection in `send_verification_otp`: the email when it
contains an "@", else the phone. -/
def otpIdentifier (phone email : String) : String :=
  if email.data.contains '@' then email else phone

/-- Method `OTPService.send_verification_otp` (app/services/otp_service.py,
lines 27-65): SETEX the generated code at `otp:{purpose}:{identifier}` and
a zero attempt counter at `otp_attempts:{purpose}:{identifier}`, both with
the OTP TTL.  The cryptographically random code generation is externalized
as the `otpCode` argument; delivery is a logged no-op in the source. -/
def send_verification_otp (s : Store) (now : Nat) (phone email purpose otpCode : String) :
    Bool × Store :=
  let idf := otpIdentifier phone email
  let s1 := Store.setex s now (OTP_EXPIRE_MINUTES * 60) (Key.otp purpose idf) (Val.str otpCode)
  let s2 := Store.setex s1 now (OTP_EXPIRE_MINUTES * 60) (Key.otpAttempts purpose idf)
    (Val.num 0)
  (true, s2)

/-- Method `OTPService.verify_otp` (lines 67-106): read the attempt
counter (absent reads as 0) and refuse when it already reached
`OTP_MAX_ATTEMPTS`; read the stored code and refuse when absent (or
Python-falsy empty); only then INCR the attempt counter.  The service's
redis client is created with `decode_responses=True`
(app/core/redis_client.py lines 22-30), so `redis_client.get` returns
`str` and the comparison line `stored_otp.decode() == code` raises
AttributeError before comparing; the catch-all `except` handler then
returns False, with the increment already applied.  The `verified`
(delete code and counter, return True) and `invalid` return sites written
below that line are therefore unreachable, for a correct code as much as
for a wrong one. -/
def verify_otp (s : Store) (now : Nat) (identifier code purpose : String) :
    OtpOutcome × Store :=
  let attempts := match Store.get s now (Key.otpAttempts purpose identifier) with
    | some v => v.asNat
    | none => 0
  if OTP_MAX_ATTEMPTS ≤ attempts then (.exhausted, s)
  else
    match Store.get s now (Key.otp purpose identifier) with
    | none => (.notFound, s)
    | some stored =>
      if stored = Val.str "" then (.notFound, s)
      else
        let r := Store.incr s now (Key.otpAttempts purpose identifier)
        (.error, r.2)

/-- Result of `RateLimitService.check_rate_limit`: True, or the raised
429 with its Retry-After value. -/
inductive RateResult where
  | allowed
  | blocked (retryAfter : Int)
deriving DecidableEq, Repr

/-- Reading of the counter at a key as the source does:
`int(current_count) if current_count else 0`. -/
def currentCount (s : Store) (now : Nat) (k : Key) : Nat :=
  match Store.get s now k with
  | some v => v.asNat
  | none => 0

/-- Method `RateLimitService.check_rate_limit`
(app/services/rate_limit_service.py, lines 18-66): read the counter; when
it already reached the limit, raise 429 carrying the key's TTL and leave
the store untouched; otherwise INCR, and set the window expiry when the
pre-read count was zero. -/
def check_rate_limit (s : Store) (now : Nat) (key : String) (limit window : Nat) :
    RateResult × Store :=
  let k := Key.rate key
  let c := currentCount s now k
  if limit ≤ c then (.blocked (Store.ttlOf s now k), s)
  else
    let r := Store.incr s now k
    let s2 := if c = 0 then Store.expire r.2 now window k else r.2
    (.allowed, s2)

/-- Method `RateLimitService.increment_counter` (lines 68-97): INCR, set
the window expiry when the pre-read count was zero, return the new count. -/
def increment_counter (s : Store) (now : Nat) (key : String) (window : Nat) : Nat × Store :=
  let k := Key.rate key
  let c := currentCount s now k
  let r := Store.incr s now k
  let s2 := if c = 0 then Store.expire r.2 now window k else r.2
  (r.1, s2)

/-- Enum `RegistrationStatus` (app/models/user.py). -/
inductive RegStatus where
  | pending
  | approved
  | rejected
  | suspended
deriving DecidableEq, Repr

/-- String value of a registration status, as `.value` yields. -/
def RegStatus.value : RegStatus → String
  | .pending => "pending"
  | .approved => "approved"
  | .rejected => "rejected"
  | .suspended => "suspended"

/-- The fields of the `User` model the login flow reads or writes.  The
`password` field models the bcrypt `password_hash`: hashing is treated as
an exact fingerprint of the credential, so `verify_password` is equality
with it. -/
structure User where
  id : String
  password : String
  isActive : Bool
  regStatus : RegStatus
  failedLoginAttempts : Nat
  lockedUntil : Option Nat
  lastLoginAt : Option Nat
  lastLoginIp : Option String
  role : String
deriving DecidableEq, Repr

/-- Property `User.is_locked` (app/models/user.py, lines 111-116). -/
def User.is_locked (u : User) (now : Nat) : Bool :=
  match u.lockedUntil with
  | some t => decide (now < t)
  | none => false

/-- Method `User.can_login` (app/models/user.py, lines 118-129). -/
def User.can_login (u : User) (now : Nat) : Bool × Option String :=
  if !u.isActive then (false, some "Account is deactivated")
  else if u.regStatus ≠ RegStatus.approved then
    (false, some ("Account is " ++ u.regStatus.value))
  else if u.is_locked now then
    (false, some "Account is temporarily locked due to failed login attempts")
  else (true, none)

/-- Function `verify_password` (app/core/security.py) under the
hash-as-fingerprint model: the submitted password matches iff it equals
the stored credential. -/
def verify_password (plain stored : String) : Bool := plain == stored

/-- Outcome of the login endpoint: the token payload or an HTTP error. -/
inductive LoginResult where
  | success (access refresh : Token) (expires_in : Nat)
  | httpErr (status : Nat) (detail : String)
deriving DecidableEq, Repr

/-- Endpoint `login` (app/api/v1/endpoints/auth.py, lines 261-330), the
guard logic after the per-IP rate-limit gate: unknown identifier bumps the
failed-login IP counter and answers 401 "Invalid credentials"; a user who
cannot log in gets 401 with the `can_login` reason; a wrong password
increments the failed-attempt counter, sets the lockout timestamp when the
counter reaches the maximum, and answers 401 "Invalid credentials"; a
correct password resets the counter, clears the lockout, records the
login, and mints a token pair.  Returns the response, the committed user
row, and the store. -/
def login (s : Store) (now : Nat) (clientIp : String) (found : Option User)
    (password : String) : LoginResult × Option User × Store :=
  match found with
  | none =>
    let r := increment_counter s now ("failed_login:" ++ clientIp) 3600
    (.httpErr 401 "Invalid credentials", none, r.2)
  | some u =>
    match u.can_login now with
    | (false, reason) => (.httpErr 401 (reason.getD ""), some u, s)
    | (true, _) =>
      if verify_password password u.password then
        let u1 : User := { u with
          failedLoginAttempts := 0, lockedUntil := none,
          lastLoginAt := some now, lastLoginIp := some clientIp }
        let r := create_token_pair s now u.id u.role
        (.success r.1.access_token r.1.refresh_token r.1.expires_in, some u1, r.2)
      else
        let n := u.failedLoginAttempts + 1
        let u1 : User := { u with
          failedLoginAttempts := n,
          lockedUntil := if MAX_LOGIN_ATTEMPTS ≤ n
            then some (now + LOCKOUT_DURATION_MINUTES * 60)
            else u.lockedUntil }
        (.httpErr 401 "Invalid credentials", some u1, s)

/-- One login attempt viewed as a state transformer on (committed user
row, store). -/
def loginAttempt (ip pw : String) (t : Nat) (us : Option User × Store) :
    Option User × Store :=
  (login us.2 t ip us.1 pw).2

/-- A sequence of login attempts with the same credentials at the given
times. -/
def runAttempts (ip pw : String) (ts : List Nat) (us : Option User × Store) :
    Option User × Store :=
  ts.foldl (fun acc t => loginAttempt ip pw t acc) us

/-- A sequence of OTP verification calls at the given times, collecting
the outcome of each call. -/
def verifyRun (s : Store) (ts : List Nat) (identifier code purpose : String) :
    List OtpOutcome × Store :=
  match ts with
  | [] => ([], s)
  | t :: rest =>
    let r := verify_otp s t identifier code purpose
    let q := verifyRun r.2 rest identifier code purpose
    (r.1 :: q.1, q.2)

/-- Store after issuing OTP code "483920" for purpose email_verification
and identifier a@x.com (the spec's concrete scenario). -/
def otpIssued : Store :=
  (send_verification_otp emptyStore 0 "999" "a@x.com" "email_verification" "483920").2

/-- Store after `n` calls of the rate limiter's spec scenario
check("ip:1.2.3.4", limit 5, window 3600) in immediate succession. -/
def rateCalls : Nat → Store
  | 0 => emptyStore
  | n + 1 => (check_rate_limit (rateCalls n) 0 "ip:1.2.3.4" 5 3600).2

/-- Access token of the C1 scenario. -/
def c1Token : Token := create_access_token "u1" (some "agent") 0

/-- Store of the C1 scenario: the token has been blacklisted. -/
def c1Store : Store := (blacklist_token emptyStore 0 c1Token).2

/-- Claim C1: during the blacklist check, an unreachable store must make
the token-authorization path fail closed (treat the token as
unauthenticated).  The code does the opposite: `is_token_blacklisted`
swallows the store failure and reports not-blacklisted, so
`verify_token_with_blacklist` authorizes a token that is in fact
blacklisted — with the store reachable the same token is denied. -/
theorem C1_blacklist_unavailable_fails_open :
    is_token_blacklisted true c1Store 10 c1Token = true ∧
    verify_token_with_blacklist true c1Store 10 c1Token = none ∧
    is_token_blacklisted false c1Store 10 c1Token = false ∧
    verify_token_with_blacklist false c1Store 10 c1Token =
      some { user_id := "u1", role := some "agent" } := by
  refine ⟨by decide, by decide, by decide, by decide⟩

/-- Claim C2, counterexample: after issuing code "483920" for
(email_verification, a@x.com), the first three verify calls with a wrong
code each return the except-handler failure (the comparison line raises
on the str the decode_responses client returns) — not invalid, invalid,
exhausted as the claim states — and the fourth returns exhausted, not
not_found. -/
theorem C2_third_wrong_verify_not_exhausted :
    (verifyRun otpIssued [1, 2, 3, 4] "a@x.com" "000000" "email_verification").1 =
      [OtpOutcome.error, OtpOutcome.error, OtpOutcome.error, OtpOutcome.exhausted] ∧
    OtpOutcome.error ≠ OtpOutcome.invalid ∧
    OtpOutcome.error ≠ OtpOutcome.exhausted ∧
    OtpOutcome.exhausted ≠ OtpOutcome.notFound := by
  refine ⟨by decide, by decide, by decide, by decide⟩

/-- Claim C3, counterexample: with the counter at the limit (after five
allowed calls of check("ip:1.2.3.4", 5, 3600)), the sixth call is blocked
and leaves the stored counter at 5 — a blocked call does not increment the
counter, contrary to the claim. -/
theorem C3_blocked_call_does_not_increment :
    (check_rate_limit (rateCalls 5) 0 "ip:1.2.3.4" 5 3600).1 = RateResult.blocked 3600 ∧
    currentCount (rateCalls 5) 0 (Key.rate "ip:1.2.3.4") = 5 ∧
    currentCount (check_rate_limit (rateCalls 5) 0 "ip:1.2.3.4" 5 3600).2 0
      (Key.rate "ip:1.2.3.4") = 5 := by
  refine ⟨by decide, by decide, by decide⟩

/-- Claim C8: calling logoutAll twice in a row is safe — the second call
reports the same success as the first and leaves the store state
identical to the state after the first call. -/
theorem C8_logout_all_idempotent (s : Store) (userId : String) :
    (logout_all_sessions s userId).1 = true ∧
    (logout_all_sessions (logout_all_sessions s userId).2 userId).1 = true ∧
    (logout_all_sessions (logout_all_sessions s userId).2 userId).2 =
      (logout_all_sessions s userId).2 := by
  refine ⟨rfl, rfl, ?_⟩
  funext k
  simp only [logout_all_sessions, removeRefreshToken, clearUserSession, Store.del]
  by_cases h1 : k = Key.session userId <;> by_cases h2 : k = Key.refreshTok userId <;>
    simp [h1, h2]

/-- Claim C6: blacklisting a token that still has positive remaining
lifetime succeeds, and afterwards the blacklist check answers true at
every instant (from the revocation on) strictly before the token's
original expiry and false from the expiry on — the entry's TTL is exactly
the token's remaining validity window, so it never outlives the token. -/
theorem C6_blacklist_entry_ttl (s : Store) (t0 e : Nat) (c : Claims)
    (hexp : c.exp = some e) (hlife : t0 < e) :
    (blacklist_token s t0 (Token.signed SECRET_KEY c)).1 = true ∧
    ∀ t, t0 ≤ t →
      (is_token_blacklisted true (blacklist_token s t0 (Token.signed SECRET_KEY c)).2 t
          (Token.signed SECRET_KEY c) = true ↔ t < e) := by
  have he0 : e ≠ 0 := by omega
  have hst : (blacklist_token s t0 (Token.signed SECRET_KEY c)).2 =
      Store.setex s t0 (e - t0) (blacklistKey (Token.signed SECRET_KEY c)) (Val.str "1") := by
    simp [blacklist_token, jwtDecode, hexp, he0, hlife]
  refine ⟨by simp [blacklist_token, jwtDecode, hexp, he0, hlife], ?_⟩
  intro t _
  rw [hst]
  simp only [is_token_blacklisted, redisExists, blacklistKey, Store.live, Store.setex,
    if_pos, if_true]
  simp only [reduceIte, decide_eq_true_eq]
  omega

/-- Witness for C6 at a concrete token blacklisted at time 0 with expiry
100: the entry answers true at 50 and the iff also holds at 100. -/
theorem C6_blacklist_entry_ttl_witness :
    (blacklist_token emptyStore 0 (Token.signed SECRET_KEY
        { sub := "u1", type := "access", exp := some 100, iat := 0, role := none })).1
      = true ∧
    ((is_token_blacklisted true
        (blacklist_token emptyStore 0 (Token.signed SECRET_KEY
          { sub := "u1", type := "access", exp := some 100, iat := 0, role := none })).2 50
        (Token.signed SECRET_KEY
          { sub := "u1", type := "access", exp := some 100, iat := 0, role := none })
      = true) ↔ (50 : Nat) < 100) ∧
    ((is_token_blacklisted true
        (blacklist_token emptyStore 0 (Token.signed SECRET_KEY
          { sub := "u1", type := "access", exp := some 100, iat := 0, role := none })).2 100
        (Token.signed SECRET_KEY
          { sub := "u1", type := "access", exp := some 100, iat := 0, role := none })
      = true) ↔ (100 : Nat) < 100) :=
  ⟨(C6_blacklist_entry_ttl emptyStore 0 100 _ rfl (by decide)).1,
   (C6_blacklist_entry_ttl emptyStore 0 100 _ rfl (by decide)).2 50 (by decide),
   (C6_blacklist_entry_ttl emptyStore 0 100 _ rfl (by decide)).2 100 (by decide)⟩

/-- Freshly issued refresh tokens validate: after create_token_pair, the
new refresh token passed to verify_refresh_token at the issuance time
yields the subject id, provided the subject is nonempty and the fresh
token is not already blacklisted in the prior store. -/
theorem verify_refresh_fresh (s : Store) (now : Nat) (uid role : String)
    (hsub : uid ≠ "")
    (hbl : s (Key.blacklist (create_refresh_token uid now)) = none) :
    verify_refresh_token true (create_token_pair s now uid role).2 now
      (create_token_pair s now uid role).1.refresh_token = some uid := by
  simp only [create_refresh_token, REFRESH_TOKEN_EXPIRE_DAYS] at hbl
  simp [create_token_pair, create_refresh_token, verify_refresh_token, jwtDecode,
    is_token_blacklisted, redisExists, Store.live, blacklistKey, storeRefreshToken,
    Store.setex, Store.get, hsub, hbl, REFRESH_TOKEN_EXPIRE_DAYS]

/-- Claim C7: a token pair minted by create_token_pair round-trips — the
access token verifies to the same subject id and role, and the refresh
token passed immediately to verify_refresh_token yields the subject id
(for a nonempty subject whose fresh refresh token is not already
blacklisted in the store). -/
theorem C7_issue_round_trip (s : Store) (now : Nat) (uid role : String)
    (hsub : uid ≠ "")
    (hbl : s (Key.blacklist (create_refresh_token uid now)) = none) :
    verify_token (create_token_pair s now uid role).1.access_token now =
      some { user_id := uid, role := some role } ∧
    verify_refresh_token true (create_token_pair s now uid role).2 now
      (create_token_pair s now uid role).1.refresh_token = some uid := by
  constructor
  · simp [create_token_pair, create_access_token, verify_token, jwtDecode]
  · exact verify_refresh_fresh s now uid role hsub hbl

/-- Witness for C7 at subject u1, role agent, empty store, time 0. -/
theorem C7_issue_round_trip_witness :
    verify_token (create_token_pair emptyStore 0 "u1" "agent").1.access_token 0 =
      some { user_id := "u1", role := some "agent" } ∧
    verify_refresh_token true (create_token_pair emptyStore 0 "u1" "agent").2 0
      (create_token_pair emptyStore 0 "u1" "agent").1.refresh_token = some "u1" :=
  C7_issue_round_trip emptyStore 0 "u1" "agent" (by decide) rfl

/-- Claim C4: issuing a second token pair overwrites the refresh pointer;
immediately afterwards the previous refresh token is rejected by
verify_refresh_token while the newly issued one yields the subject id.
The two issuances happen at distinct timestamps, so the two encoded
refresh tokens differ. -/
theorem C4_pointer_overwrite (s : Store) (t1 t2 : Nat) (uid role : String)
    (hne : t1 ≠ t2) (hsub : uid ≠ "")
    (hbl : s (Key.blacklist (create_refresh_token uid t2)) = none) :
    verify_refresh_token true
        (create_token_pair (create_token_pair s t1 uid role).2 t2 uid role).2 t2
        (create_token_pair s t1 uid role).1.refresh_token = none ∧
    verify_refresh_token true
        (create_token_pair (create_token_pair s t1 uid role).2 t2 uid role).2 t2
        (create_token_pair (create_token_pair s t1 uid role).2 t2 uid role).1.refresh_token
      = some uid := by
  have hne' : t2 ≠ t1 := Ne.symm hne
  have hs1bl : (create_token_pair s t1 uid role).2
      (Key.blacklist (create_refresh_token uid t2)) = none := by
    simp [create_token_pair, storeRefreshToken, Store.setex, hbl]
  constructor
  · by_cases hdec : t2 ≤ t1 + 604800
    · rcases hsb : s (Key.blacklist (create_refresh_token uid t1)) with _ | ⟨v, eo⟩
      · simp [create_refresh_token, REFRESH_TOKEN_EXPIRE_DAYS] at hsb
        simp [create_token_pair, create_refresh_token, verify_refresh_token, jwtDecode,
          hdec, hsub, is_token_blacklisted, redisExists, Store.live, blacklistKey,
          storeRefreshToken, Store.setex, Store.get, hsb, hne', REFRESH_TOKEN_EXPIRE_DAYS]
      · rcases eo with _ | e
        · simp [create_refresh_token, REFRESH_TOKEN_EXPIRE_DAYS] at hsb
          simp [create_token_pair, create_refresh_token, verify_refresh_token, jwtDecode,
            hdec, hsub, is_token_blacklisted, redisExists, Store.live, blacklistKey,
            storeRefreshToken, Store.setex, Store.get, hsb, REFRESH_TOKEN_EXPIRE_DAYS]
        · simp [create_refresh_token, REFRESH_TOKEN_EXPIRE_DAYS] at hsb
          by_cases he : t2 < e
          · simp [create_token_pair, create_refresh_token, verify_refresh_token, jwtDecode,
              hdec, hsub, is_token_blacklisted, redisExists, Store.live, blacklistKey,
              storeRefreshToken, Store.setex, Store.get, hsb, he, REFRESH_TOKEN_EXPIRE_DAYS]
          · simp [create_token_pair, create_refresh_token, verify_refresh_token, jwtDecode,
              hdec, hsub, is_token_blacklisted, redisExists, Store.live, blacklistKey,
              storeRefreshToken, Store.setex, Store.get, hsb, he, hne',
              REFRESH_TOKEN_EXPIRE_DAYS]
    · simp [create_token_pair, create_refresh_token, verify_refresh_token, jwtDecode, hdec,
        REFRESH_TOKEN_EXPIRE_DAYS]
  · exact verify_refresh_fresh _ t2 uid role hsub hs1bl

/-- Witness for C4: subject u1, issuances at times 0 and 1. -/
theorem C4_pointer_overwrite_witness :
    verify_refresh_token true
        (create_token_pair (create_token_pair emptyStore 0 "u1" "agent").2 1 "u1" "agent").2 1
        (create_token_pair emptyStore 0 "u1" "agent").1.refresh_token = none ∧
    verify_refresh_token true
        (create_token_pair (create_token_pair emptyStore 0 "u1" "agent").2 1 "u1" "agent").2 1
        (create_token_pair (create_token_pair emptyStore 0 "u1" "agent").2 1 "u1"
          "agent").1.refresh_token = some "u1" :=
  C4_pointer_overwrite emptyStore 0 1 "u1" "agent" (by decide) (by decide) rfl

/-- Claim C9: a login with an unknown identifier and a login for a known,
active, approved, unlocked identity with a wrong password produce the
identical error outcome — HTTP 401 with detail "Invalid credentials". -/
theorem C9_login_indistinguishable (s : Store) (now : Nat) (ip anyPw wrongPw : String)
    (u : User) (hact : u.isActive = true) (happ : u.regStatus = RegStatus.approved)
    (hnl : u.is_locked now = false) (hw : wrongPw ≠ u.password) :
    (login s now ip none anyPw).1 = LoginResult.httpErr 401 "Invalid credentials" ∧
    (login s now ip (some u) wrongPw).1 = LoginResult.httpErr 401 "Invalid credentials" := by
  constructor
  · simp [login]
  · simp [login, User.can_login, hact, happ, hnl, verify_password, hw]

/-- Witness for C9 at a concrete user and state. -/
theorem C9_login_indistinguishable_witness :
    (login emptyStore 0 "1.2.3.4" none "whatever").1 =
      LoginResult.httpErr 401 "Invalid credentials" ∧
    (login emptyStore 0 "1.2.3.4"
        (some ⟨"u1", "pw", true, RegStatus.approved, 0, none, none, none, "agent"⟩)
        "bad").1 = LoginResult.httpErr 401 "Invalid credentials" :=
  C9_login_indistinguishable emptyStore 0 "1.2.3.4" "whatever" "bad" _ rfl rfl rfl
    (by decide)

/-- A token that `blacklist_token` cannot blacklist for the reasons the
claim names: well-signed but lacking an exp claim, or already expired. -/
def deadToken (now : Nat) (t : Token) : Prop :=
  ∃ c, t = Token.signed SECRET_KEY c ∧ (c.exp = none ∨ ∃ e, c.exp = some e ∧ e ≤ now)

/-- Blacklisting a dead token fails and leaves the store untouched. -/
theorem blacklist_token_dead (s : Store) (now : Nat) (t : Token)
    (h : deadToken now t) : blacklist_token s now t = (false, s) := by
  obtain ⟨c, rfl, hc⟩ := h
  rcases hc with hnone | ⟨e, he, hle⟩
  · simp [blacklist_token, jwtDecode, hnone]
  · rcases Nat.eq_zero_or_pos e with rfl | hpos
    · simp [blacklist_token, jwtDecode, he]
    · have : ¬ now < e := by omega
      simp [blacklist_token, jwtDecode, he, this, Nat.pos_iff_ne_zero.mp hpos]

/-- Claim C10: when the stored refresh pointer exists and either token
given to logout is expired or lacks an exp claim, the logout endpoint
still deletes the subject's refresh pointer and session key, yet
logout_user reports failure and the endpoint answers 500 "Logout failed". -/
theorem C10_logout_failure_after_cleanup (s : Store) (now : Nat) (uid : String)
    (access rt : Token)
    (hptr : Store.get s now (Key.refreshTok uid) = some (Val.tok rt))
    (hdead : deadToken now access ∨ deadToken now rt) :
    (logout_endpoint s now uid access).1 = LogoutResult.err 500 "Logout failed" ∧
    (logout_endpoint s now uid access).2 (Key.refreshTok uid) = none ∧
    (logout_endpoint s now uid access).2 (Key.session uid) = none := by
  have hfail : (logout_user s now uid access rt).1 = false := by
    rcases hdead with hda | hdr
    · simp [logout_user, blacklist_token_dead s now access hda]
    · simp [logout_user, blacklist_token_dead _ now rt hdr]
  have hdel : ∀ k, (k = Key.refreshTok uid ∨ k = Key.session uid) →
      (logout_user s now uid access rt).2 k = none := by
    intro k hk
    simp only [logout_user, removeRefreshToken, clearUserSession, Store.del]
    rcases hk with rfl | rfl <;> simp
  simp only [logout_endpoint, getRefreshToken, hptr]
  simp [hfail, hdel _ (Or.inl rfl), hdel _ (Or.inr rfl)]

/-- Witness for C10: pointer present, access token expired at the time of
logout. -/
theorem C10_logout_failure_after_cleanup_witness :
    (logout_endpoint (storeRefreshToken emptyStore 0 "u1" (create_refresh_token "u1" 0))
        2000 "u1" (create_access_token "u1" (some "agent") 0)).1 =
      LogoutResult.err 500 "Logout failed" ∧
    (logout_endpoint (storeRefreshToken emptyStore 0 "u1" (create_refresh_token "u1" 0))
        2000 "u1" (create_access_token "u1" (some "agent") 0)).2 (Key.refreshTok "u1")
      = none ∧
    (logout_endpoint (storeRefreshToken emptyStore 0 "u1" (create_refresh_token "u1" 0))
        2000 "u1" (create_access_token "u1" (some "agent") 0)).2 (Key.session "u1")
      = none :=
  C10_logout_failure_after_cleanup _ 2000 "u1" _ (create_refresh_token "u1" 0)
    (by decide)
    (Or.inl ⟨_, rfl, Or.inr ⟨900, rfl, by decide⟩⟩)

/-- One wrong-password login attempt against a user who passes the
can_login gate: 401 "Invalid credentials", counter bumped, lockout set
exactly when the bumped counter reaches the maximum, store untouched. -/
theorem login_wrong_password (s : Store) (now : Nat) (ip wrongPw : String) (u : User)
    (hact : u.isActive = true) (happ : u.regStatus = RegStatus.approved)
    (hnl : u.is_locked now = false) (hw : wrongPw ≠ u.password) :
    login s now ip (some u) wrongPw =
      (LoginResult.httpErr 401 "Invalid credentials",
       some { u with
         failedLoginAttempts := u.failedLoginAttempts + 1,
         lockedUntil := if MAX_LOGIN_ATTEMPTS ≤ u.failedLoginAttempts + 1
           then some (now + LOCKOUT_DURATION_MINUTES * 60) else u.lockedUntil },
       s) := by
  simp [login, User.can_login, hact, happ, hnl, verify_password, hw]

/-- Claim C5: five consecutive wrong-password attempts against an active,
approved, unlocked identity set the lockout to the time of the fifth
attempt plus the lockout duration; a sixth attempt with the correct
password while the lockout is pending answers locked; once the lockout
has elapsed, the correct password succeeds and resets the counter and the
lockout. -/
theorem C5_lockout (s : Store) (ip wrongPw : String) (u : User)
    (hact : u.isActive = true) (happ : u.regStatus = RegStatus.approved)
    (hfail : u.failedLoginAttempts = 0) (hlock : u.lockedUntil = none)
    (hw : wrongPw ≠ u.password)
    (t1 t2 t3 t4 t5 t6 t7 : Nat)
    (h6 : t6 < t5 + LOCKOUT_DURATION_MINUTES * 60)
    (h7 : t5 + LOCKOUT_DURATION_MINUTES * 60 ≤ t7) :
    (runAttempts ip wrongPw [t1, t2, t3, t4, t5] (some u, s)).1 =
      some { u with
        failedLoginAttempts := 5,
        lockedUntil := some (t5 + LOCKOUT_DURATION_MINUTES * 60) } ∧
    (login (runAttempts ip wrongPw [t1, t2, t3, t4, t5] (some u, s)).2 t6 ip
        (runAttempts ip wrongPw [t1, t2, t3, t4, t5] (some u, s)).1 u.password).1 =
      LoginResult.httpErr 401
        "Account is temporarily locked due to failed login attempts" ∧
    (login (runAttempts ip wrongPw [t1, t2, t3, t4, t5] (some u, s)).2 t7 ip
        (runAttempts ip wrongPw [t1, t2, t3, t4, t5] (some u, s)).1 u.password).2.1 =
      some { u with
        failedLoginAttempts := 0, lockedUntil := none,
        lastLoginAt := some t7, lastLoginIp := some ip } ∧
    ∃ a r n, (login (runAttempts ip wrongPw [t1, t2, t3, t4, t5] (some u, s)).2 t7 ip
        (runAttempts ip wrongPw [t1, t2, t3, t4, t5] (some u, s)).1 u.password).1 =
      LoginResult.success a r n := by
  simp only [LOCKOUT_DURATION_MINUTES] at h6 h7
  have hrun : runAttempts ip wrongPw [t1, t2, t3, t4, t5] (some u, s) =
      (some { u with failedLoginAttempts := 5, lockedUntil := some (t5 + 1800) }, s) := by
    simp [runAttempts, loginAttempt, login, User.can_login, User.is_locked,
      verify_password, hact, happ, hfail, hlock, hw, MAX_LOGIN_ATTEMPTS,
      LOCKOUT_DURATION_MINUTES]
  rw [hrun]
  refine ⟨by simp [LOCKOUT_DURATION_MINUTES], ?_, ?_, ?_⟩
  · simp [login, User.can_login, User.is_locked, hact, happ, h6]
  · have hnl7 : ¬ t7 < t5 + 1800 := by omega
    simp [login, User.can_login, User.is_locked, verify_password, hact, happ, hnl7,
      LOCKOUT_DURATION_MINUTES]
  · have hnl7 : ¬ t7 < t5 + 1800 := by omega
    simp [login, User.can_login, User.is_locked, verify_password, hact, happ, hnl7]

/-- Witness for C5 at a concrete identity, wrong attempts at times 0..4,
the locked retry at 5, and the successful retry at 1804 + 30 minutes. -/
theorem C5_lockout_witness :
    (runAttempts "1.2.3.4" "bad" [0, 1, 2, 3, 4]
        (some ⟨"u1", "pw", true, RegStatus.approved, 0, none, none, none, "agent"⟩,
         emptyStore)).1 =
      some { User.mk "u1" "pw" true RegStatus.approved 0 none none none "agent" with
        failedLoginAttempts := 5,
        lockedUntil := some (4 + LOCKOUT_DURATION_MINUTES * 60) } ∧
    (login (runAttempts "1.2.3.4" "bad" [0, 1, 2, 3, 4]
        (some ⟨"u1", "pw", true, RegStatus.approved, 0, none, none, none, "agent"⟩,
         emptyStore)).2 5 "1.2.3.4"
        (runAttempts "1.2.3.4" "bad" [0, 1, 2, 3, 4]
          (some ⟨"u1", "pw", true, RegStatus.approved, 0, none, none, none, "agent"⟩,
           emptyStore)).1 "pw").1 =
      LoginResult.httpErr 401
        "Account is temporarily locked due to failed login attempts" ∧
    (login (runAttempts "1.2.3.4" "bad" [0, 1, 2, 3, 4]
        (some ⟨"u1", "pw", true, RegStatus.approved, 0, none, none, none, "agent"⟩,
         emptyStore)).2 2000 "1.2.3.4"
        (runAttempts "1.2.3.4" "bad" [0, 1, 2, 3, 4]
          (some ⟨"u1", "pw", true, RegStatus.approved, 0, none, none, none, "agent"⟩,
           emptyStore)).1 "pw").2.1 =
      some { User.mk "u1" "pw" true RegStatus.approved 0 none none none "agent" with
        failedLoginAttempts := 0, lockedUntil := none,
        lastLoginAt := some 2000, lastLoginIp := some "1.2.3.4" } ∧
    ∃ a r n,
      (login (runAttempts "1.2.3.4" "bad" [0, 1, 2, 3, 4]
          (some ⟨"u1", "pw", true, RegStatus.approved, 0, none, none, none, "agent"⟩,
           emptyStore)).2 2000 "1.2.3.4"
          (runAttempts "1.2.3.4" "bad" [0, 1, 2, 3, 4]
            (some ⟨"u1", "pw", true, RegStatus.approved, 0, none, none, none, "agent"⟩,
             emptyStore)).1 "pw").1 = LoginResult.success a r n :=
  C5_lockout emptyStore "1.2.3.4" "bad" _ rfl rfl rfl rfl (by decide)
    0 1 2 3 4 5 2000 (by decide) (by decide)

/-- Claim C2 as the code behaves (amended): verify_otp checks the stored
attempt counter against the maximum before incrementing, increments only
after finding a stored code, and does not delete the challenge on
exhaustion; and because the comparison line raises AttributeError on the
already-decoded str, every call that finds a stored code — whatever code
is submitted, wrong or correct — returns the except-handler failure,
never invalid or verified.  Hence after issuing a code, three verify
calls (within the TTL window) each return the generic failure, the
fourth returns exhausted, and the challenge code is still stored
afterwards — not_found would arise only after TTL expiry. -/
theorem C2_amended_preincrement_check (s : Store) (n t1 t2 t3 t4 : Nat)
    (phone email purpose code submitted : String)
    (hc : code ≠ "")
    (h1 : t1 < n + OTP_EXPIRE_MINUTES * 60) (h2 : t2 < n + OTP_EXPIRE_MINUTES * 60)
    (h3 : t3 < n + OTP_EXPIRE_MINUTES * 60) (h4 : t4 < n + OTP_EXPIRE_MINUTES * 60) :
    (verifyRun (send_verification_otp s n phone email purpose code).2 [t1, t2, t3, t4]
        (otpIdentifier phone email) submitted purpose).1 =
      [OtpOutcome.error, OtpOutcome.error, OtpOutcome.error, OtpOutcome.exhausted] ∧
    Store.get (verifyRun (send_verification_otp s n phone email purpose code).2
        [t1, t2, t3, t4] (otpIdentifier phone email) submitted purpose).2 t4
        (Key.otp purpose (otpIdentifier phone email)) = some (Val.str code) := by
  simp only [OTP_EXPIRE_MINUTES] at h1 h2 h3 h4
  constructor <;>
    simp [verifyRun, verify_otp, send_verification_otp, Store.get, Store.setex,
      Store.incr, Store.del, Val.asNat, currentCount, OTP_MAX_ATTEMPTS,
      OTP_EXPIRE_MINUTES, hc, h1, h2, h3, h4]

/-- Witness for C2 amended: the spec's concrete scenario — code "483920"
issued at time 0 for (email_verification, a@x.com), wrong code "000000"
submitted at times 1..4. -/
theorem C2_amended_preincrement_check_witness :
    (verifyRun (send_verification_otp emptyStore 0 "999" "a@x.com" "email_verification"
        "483920").2 [1, 2, 3, 4] (otpIdentifier "999" "a@x.com") "000000"
        "email_verification").1 =
      [OtpOutcome.error, OtpOutcome.error, OtpOutcome.error, OtpOutcome.exhausted] ∧
    Store.get (verifyRun (send_verification_otp emptyStore 0 "999" "a@x.com"
        "email_verification" "483920").2 [1, 2, 3, 4] (otpIdentifier "999" "a@x.com")
        "000000" "email_verification").2 4
        (Key.otp "email_verification" (otpIdentifier "999" "a@x.com")) =
      some (Val.str "483920") :=
  C2_amended_preincrement_check emptyStore 0 1 2 3 4 "999" "a@x.com" "email_verification"
    "483920" "000000" (by decide) (by decide) (by decide) (by decide) (by decide)

/-- Claim C3 as the code behaves (amended): a check call is blocked, with
retry_after equal to the key's remaining TTL, exactly when the pre-read
stored count has already reached the limit; a blocked call leaves the
store untouched (it does not increment), while an allowed call increments
the stored counter by one.  The spec's concrete scenario holds: six
immediate calls of check("ip:1.2.3.4", 5, 3600) are allowed five times
and blocked on the sixth with retry_after 3600 <= 3600. -/
theorem C3_amended_rate_limit (s : Store) (now : Nat) (key : String)
    (limit window : Nat) (hwin : 0 < window) :
    ((check_rate_limit s now key limit window).1 =
        RateResult.blocked (Store.ttlOf s now (Key.rate key)) ↔
      limit ≤ currentCount s now (Key.rate key)) ∧
    (limit ≤ currentCount s now (Key.rate key) →
      (check_rate_limit s now key limit window).2 = s) ∧
    (currentCount s now (Key.rate key) < limit →
      (check_rate_limit s now key limit window).1 = RateResult.allowed ∧
      currentCount (check_rate_limit s now key limit window).2 now (Key.rate key) =
        currentCount s now (Key.rate key) + 1) ∧
    ((∀ i, i < 5 → (check_rate_limit (rateCalls i) 0 "ip:1.2.3.4" 5 3600).1 =
        RateResult.allowed) ∧
      (check_rate_limit (rateCalls 5) 0 "ip:1.2.3.4" 5 3600).1 =
        RateResult.blocked 3600 ∧
      (3600 : Int) ≤ 3600) := by
  refine ⟨?_, ?_, ?_, by decide, by decide, by decide⟩
  · by_cases hb : limit ≤ currentCount s now (Key.rate key)
    · simp [check_rate_limit, hb]
    · simp [check_rate_limit, hb]
  · intro hb
    simp [check_rate_limit, hb]
  · intro hlt
    have hb : ¬ limit ≤ currentCount s now (Key.rate key) := by omega
    refine ⟨by simp [check_rate_limit, hb], ?_⟩
    rcases hsk : s (Key.rate key) with _ | ⟨v, _ | e⟩
    · simp [currentCount, Store.get, hsk] at hlt
      simp [check_rate_limit, currentCount, Store.get, Store.incr, Store.expire, hsk,
        Val.asNat_num, Nat.pos_iff_ne_zero.mp hlt, hwin]
    · by_cases hz : Val.asNat v = 0
      · simp [currentCount, Store.get, hsk, hz] at hlt
        simp [check_rate_limit, currentCount, Store.get, Store.incr, Store.expire, hsk,
          hz, Val.asNat_num, Nat.pos_iff_ne_zero.mp hlt, hwin]
      · simp [currentCount, Store.get, hsk] at hb
        have hb' : ¬ limit ≤ v.asNat := by omega
        simp [check_rate_limit, currentCount, Store.get, Store.incr, Store.expire, hsk,
          hb', hz, Val.asNat_num, hwin]
    · by_cases he : now < e
      · by_cases hz : Val.asNat v = 0
        · simp [currentCount, Store.get, hsk, he, hz] at hlt
          simp [check_rate_limit, currentCount, Store.get, Store.incr, Store.expire,
            hsk, he, hz, Val.asNat_num, Nat.pos_iff_ne_zero.mp hlt, hwin]
        · simp [currentCount, Store.get, hsk, he] at hb
          have hb' : ¬ limit ≤ v.asNat := by omega
          simp [check_rate_limit, currentCount, Store.get, Store.incr, Store.expire,
            hsk, hb', he, hz, Val.asNat_num, hwin]
      · simp [currentCount, Store.get, hsk, he] at hlt
        simp [check_rate_limit, currentCount, Store.get, Store.incr, Store.expire, hsk,
          he, Val.asNat_num, Nat.pos_iff_ne_zero.mp hlt, hwin]

/-- Witness for C3 amended: after one allowed call the counter is 1; a
further allowed call increments it to 2, and the concrete six-call
scenario holds. -/
theorem C3_amended_rate_limit_witness :
    (((check_rate_limit (rateCalls 1) 0 "ip:1.2.3.4" 5 3600).1 =
        RateResult.blocked (Store.ttlOf (rateCalls 1) 0 (Key.rate "ip:1.2.3.4")) ↔
      (5 : Nat) ≤ currentCount (rateCalls 1) 0 (Key.rate "ip:1.2.3.4"))) ∧
    ((check_rate_limit (rateCalls 1) 0 "ip:1.2.3.4" 5 3600).1 = RateResult.allowed ∧
      currentCount (check_rate_limit (rateCalls 1) 0 "ip:1.2.3.4" 5 3600).2 0
          (Key.rate "ip:1.2.3.4") =
        currentCount (rateCalls 1) 0 (Key.rate "ip:1.2.3.4") + 1) ∧
    ((∀ i, i < 5 → (check_rate_limit (rateCalls i) 0 "ip:1.2.3.4" 5 3600).1 =
        RateResult.allowed) ∧
      (check_rate_limit (rateCalls 5) 0 "ip:1.2.3.4" 5 3600).1 =
        RateResult.blocked 3600 ∧
      (3600 : Int) ≤ 3600) :=
  ⟨(C3_amended_rate_limit (rateCalls 1) 0 "ip:1.2.3.4" 5 3600 (by decide)).1,
   (C3_amended_rate_limit (rateCalls 1) 0 "ip:1.2.3.4" 5 3600 (by decide)).2.2.1
     (by decide),
   (C3_amended_rate_limit (rateCalls 1) 0 "ip:1.2.3.4" 5 3600 (by decide)).2.2.2⟩

end Alter8
